import Mathlib

/-!
Verification of the gotosocial storage-layer adapters and their multi-index
entity cache, following the repository sources under `internal/db/bundb`
(user / relationship / admin adapters) and `internal/api/util/parsequery.go`.
The cache core (`Load`/`Store`/`Invalidate` and the single-flight group) is
not part of the adapter sources; it is modelled from the specification and
the adapters are embedded on top of it.
-/

namespace Gts

/-- Error value returned by the storage layer to callers, mirroring the
`db.Error` taxonomy: `db.ErrNoEntries` for an absent row, an opaque storage
error otherwise, and a wrapping constructor for `fmt.Errorf("...: %w", err)`. -/
inductive GTSError where
  | errNoEntries : GTSError
  | storageErr (msg : String) : GTSError
  | wrapped (msg : String) (inner : GTSError) : GTSError
deriving DecidableEq, Repr

/-- Model of Go `errors.Is`: walks the wrap chain looking for the target. -/
def errorsIs : GTSError → GTSError → Bool
  | e, t =>
    match e with
    | .wrapped _ inner => (e == t) || errorsIs inner t
    | _ => e == t

/-- Raw backend (SQL driver) failure: a distinguished no-rows condition or
any other driver error. -/
inductive DBErr where
  | noRows : DBErr
  | driverErr (msg : String) : DBErr
deriving DecidableEq, Repr

/-- Modelled from the spec: `WrappedDB.ProcessError` is not under the adapter
sources; per the spec's failure semantics, a backend "no rows" becomes the
distinguished NotFound condition (`db.ErrNoEntries`) and any other backend
error propagates as a storage error. -/
def ProcessError : DBErr → GTSError
  | .noRows => .errNoEntries
  | .driverErr m => .storageErr m

/-- A cache index key: (keyName, keyParts). -/
abbrev CacheKey := String × List String

/-- First-match association-list lookup keyed by decidable equality. -/
def alookup {κ α : Type} [DecidableEq κ] (k : κ) : List (κ × α) → Option α
  | [] => none
  | p :: ps => if p.1 = k then some p.2 else alookup k ps

/-- Per-entity-type cache wiring: the primary identity of a value and the
full set of natural keys extracted from it. -/
structure CacheConf (V : Type) where
  primaryId : V → String
  keysOf : V → List CacheKey

/-- Modelled from the spec: the state of one `KeyedCache` — an entry table
from primary identity to cached value, plus a multi-key index from
(keyName, keyParts) to primary identity. The cache core is not among the
adapter sources. -/
structure KeyedCache (V : Type) where
  entries : List (String × V)
  index : List (CacheKey × String)

/-- The empty cache. -/
def KeyedCache.empty {V : Type} : KeyedCache V := ⟨[], []⟩

/-- Resolve a cache key to a cached value: index hit, then entry table. -/
def resolve {V : Type} (c : KeyedCache V) (k : CacheKey) : Option V :=
  match alookup k c.index with
  | none => none
  | some i => alookup i c.entries

/-- Modelled from the spec: register a value under *every* natural key
extracted from it; new mappings overwrite stale aliases (no dangling key may
point to a superseded identity), and the identity's previous keys are
re-registered. -/
def registerValue {V : Type} (cfg : CacheConf V) (c : KeyedCache V) (v : V) :
    KeyedCache V :=
  let i := cfg.primaryId v
  let ks := cfg.keysOf v
  { entries := (i, v) :: c.entries.filter (fun p => p.1 ≠ i)
    index := ks.map (fun k => (k, i)) ++
      c.index.filter (fun p => p.1 ∉ ks ∧ p.2 ≠ i) }

/-- Outcome of one `Load` call: the returned value or error, the cache state
afterwards, and whether the loader callback was invoked (a backend read). -/
structure LoadOut (V : Type) where
  result : Except GTSError V
  cache : KeyedCache V
  loaderInvoked : Bool

/-- Modelled from the spec: `KeyedCache.Load`. An index hit returns the
cached value without invoking the loader; a miss invokes the loader, and on
success registers the value under every natural key; a NotFound (or any
error) result is never cached. -/
def load {V : Type} (cfg : CacheConf V) (c : KeyedCache V) (k : CacheKey)
    (loader : Except GTSError V) : LoadOut V :=
  match resolve c k with
  | some v => ⟨.ok v, c, false⟩
  | none =>
    match loader with
    | .ok v => ⟨.ok v, registerValue cfg c v, true⟩
    | .error e => ⟨.error e, c, true⟩

/-- Modelled from the spec: `KeyedCache.Store` runs the write first; only on
success does it index the value under all its keys; on failure the cache is
left untouched. -/
def store {V : Type} (cfg : CacheConf V) (c : KeyedCache V) (v : V)
    (writer : Except GTSError Unit) : Except GTSError Unit × KeyedCache V :=
  match writer with
  | .error e => (.error e, c)
  | .ok _ => (.ok (), registerValue cfg c v)

/-- Modelled from the spec: `KeyedCache.Invalidate` resolves the primary
identity behind the given key and strips all of that identity's keys from
every index, removing the entry itself. -/
def invalidate {V : Type} (c : KeyedCache V) (k : CacheKey) : KeyedCache V :=
  match alookup k c.index with
  | none => c
  | some i =>
    { entries := c.entries.filter (fun p => p.1 ≠ i)
      index := c.index.filter (fun p => p.2 ≠ i) }

/-! ## Single-flight group (modelled from the spec)

The `SingleFlightGroup` core is not among the adapter sources. The spec: for
one load token, the first caller becomes leader and executes the loader;
followers arriving before completion do not duplicate the read and receive
the identical outcome the leader obtained; the token is retired the instant
the leader finishes. The model below is an interleaving semantics for one
token: a run is a list of events (a caller starting a `Load`, or the
in-flight read finishing with an outcome). -/

/-- An event at one single-flight token: caller `c` starts a `Load`, or the
in-flight backend read finishes with outcome `o`. -/
inductive SFEvent (V : Type) where
  | start (c : Nat) : SFEvent V
  | finish (o : Except GTSError V) : SFEvent V

/-- State of one single-flight token: the cached value for its key (if any),
whether a load is in flight, the callers awaiting the in-flight result
(leader included), how many loader executions (backend reads) occurred, and
the callers that completed together with the outcome each received. -/
structure SFState (V : Type) where
  cached : Option V
  inflight : Bool
  waiting : List Nat
  execs : Nat
  done : List (Nat × Except GTSError V)

/-- The initial single-flight state: nothing cached, nothing in flight. -/
def sfInit {V : Type} : SFState V := ⟨none, false, [], 0, []⟩

/-- Modelled from the spec: one step of the single-flight semantics. A
`start` with a cached entry is a hit; with a load in flight the caller joins
the waiters; otherwise the caller becomes leader and executes the loader
(one more backend read). A `finish` delivers the leader's outcome to every
waiter, retires the token, and caches the value only on success. -/
def sfStep {V : Type} (s : SFState V) : SFEvent V → SFState V
  | .start c =>
    match s.cached with
    | some v => { s with done := (c, .ok v) :: s.done }
    | none =>
      if s.inflight then
        { s with waiting := c :: s.waiting }
      else
        { s with inflight := true, waiting := [c], execs := s.execs + 1 }
  | .finish o =>
    if s.inflight then
      { s with
          inflight := false
          waiting := []
          done := s.waiting.map (fun c => (c, o)) ++ s.done
          cached := match o with | .ok v => some v | .error _ => none }
    else s

/-- Run a list of single-flight events from a state. -/
def sfRun {V : Type} (s : SFState V) (es : List (SFEvent V)) : SFState V :=
  es.foldl sfStep s

/-! ## Entity models and per-entity cache wiring

The entity fields kept here are the ones the adapter code reads: the natural
keys each `Load` call site uses, and for blocks the related-account fields
touched by hydration. -/

/-- Minimal model of `gtsmodel.Account`: only the identity is read here. -/
structure Account where
  id : String
deriving DecidableEq, Repr

/-- Model of `gtsmodel.User` restricted to its natural-key fields. -/
structure User where
  id : String
  accountID : String
  email : String
  externalID : String
  confirmationToken : String
deriving DecidableEq, Repr

/-- Model of `gtsmodel.Block` restricted to its natural-key fields and the
related accounts attached by hydration. -/
structure Block where
  id : String
  uri : String
  accountID : String
  targetAccountID : String
  account : Option Account := none
  targetAccount : Option Account := none
deriving DecidableEq, Repr

/-- Modelled from the spec: the user cache's key wiring is not among the
adapter sources; the key names and parts are those of the adapter `Load`
call sites (`GetUserByID` / `ByAccountID` / `ByEmailAddress` /
`ByExternalID` / `ByConfirmationToken`). -/
def userCfg : CacheConf User where
  primaryId u := u.id
  keysOf u :=
    [("ID", [u.id]), ("AccountID", [u.accountID]), ("Email", [u.email]),
     ("ExternalID", [u.externalID]), ("ConfirmationToken", [u.confirmationToken])]

/-- Modelled from the spec: the block cache's key wiring, with the key names
and parts of the adapter `Load` call sites (`GetBlockByID`, `GetBlockByURI`,
`GetBlock`). -/
def blockCfg : CacheConf Block where
  primaryId b := b.id
  keysOf b :=
    [("ID", [b.id]), ("URI", [b.uri]),
     ("AccountID.TargetAccountID", [b.accountID, b.targetAccountID])]

/-! ## Adapter functions (embedded from `internal/db/bundb`)

Backend reads and writes are passed in as values: a `dbQuery` is the outcome
the SQL query would produce (`.error .noRows` for an empty result), and a
writer outcome is an `Option DBErr`. Request contexts are reduced to the
barebones flag the adapters consult. -/

/-- The loader callback the adapters build around a backend select: a row
is returned as-is, a query error goes through `ProcessError`. -/
def dbLoader {V : Type} (dbQuery : Except DBErr V) : Except GTSError V :=
  match dbQuery with
  | .ok v => .ok v
  | .error e => .error (ProcessError e)

/-- `userDB.GetUserByID`: cache load under the "ID" key whose loader runs
the select and routes its error through `ProcessError`. -/
def GetUserByID (c : KeyedCache User) (id : String) (dbQuery : Except DBErr User) :
    LoadOut User :=
  load userCfg c ("ID", [id]) (dbLoader dbQuery)

/-- The writer callback the adapters build around a backend insert/update:
a `nil` exec error succeeds, anything else goes through `ProcessError`. -/
def dbWriter (dbExec : Option DBErr) : Except GTSError Unit :=
  match dbExec with
  | none => .ok ()
  | some e => .error (ProcessError e)

/-- `userDB.PutUser`: cache store whose writer runs the insert and routes
its error through `ProcessError`. -/
def PutUser (c : KeyedCache User) (user : User) (dbExec : Option DBErr) :
    Except GTSError Unit × KeyedCache User :=
  store userCfg c user (dbWriter dbExec)

/-- Outcome of a delete adapter: the returned error (`none` is Go `nil`),
whether the backend delete statement ran, whether the deferred cache
`Invalidate` ran, and the final cache state. -/
structure DeleteOut (V : Type) where
  err : Option GTSError
  backendDeleteRan : Bool
  invalidateRan : Bool
  cache : KeyedCache V

/-- `userDB.DeleteUserByID`: deferred `Invalidate("ID", userID)` always runs;
the user is first loaded (barebones) to populate the cache; a NotFound load
is treated as no error and skips the delete; otherwise the delete statement
runs and its error is processed. -/
def DeleteUserByID (c : KeyedCache User) (userID : String)
    (dbQuery : Except DBErr User) (dbDelete : Option DBErr) : DeleteOut User :=
  let g := GetUserByID c userID dbQuery
  match g.result with
  | .error e =>
    { err := if errorsIs e .errNoEntries then none else some e
      backendDeleteRan := false
      invalidateRan := true
      cache := invalidate g.cache ("ID", [userID]) }
  | .ok _ =>
    { err := dbDelete.map ProcessError
      backendDeleteRan := true
      invalidateRan := true
      cache := invalidate g.cache ("ID", [userID]) }

/-- Result of `relationshipDB.getBlock`: the returned block or error, the
cache afterwards, and the account IDs for which `GetAccountByID` was called
during hydration (in call order). -/
structure GetBlockOut where
  result : Except GTSError Block
  cache : KeyedCache Block
  accountReads : List String

/-- `relationshipDB.getBlock`: fetch from the cache with a loader wrapping
`dbQuery` through `ProcessError`; on load error return it as-is; if the
context is barebones return the block immediately; otherwise hydrate the
source and target accounts via `GetAccountByID` (with a barebones context),
wrapping a hydration failure with context. -/
def getBlock (c : KeyedCache Block) (lookup : CacheKey)
    (dbQuery : Except DBErr Block) (barebones : Bool)
    (getAccountByID : String → Except GTSError Account) : GetBlockOut :=
  let out := load blockCfg c lookup (dbLoader dbQuery)
  match out.result with
  | .error e => ⟨.error e, out.cache, []⟩
  | .ok block =>
    if barebones then
      ⟨.ok block, out.cache, []⟩
    else
      match getAccountByID block.accountID with
      | .error e =>
        ⟨.error (.wrapped "error getting block source account" e),
         out.cache, [block.accountID]⟩
      | .ok acc =>
        match getAccountByID block.targetAccountID with
        | .error e =>
          ⟨.error (.wrapped "error getting block target account" e),
           out.cache, [block.accountID, block.targetAccountID]⟩
        | .ok tacc =>
          ⟨.ok { block with account := some acc, targetAccount := some tacc },
           out.cache, [block.accountID, block.targetAccountID]⟩

/-- `relationshipDB.GetBlockByID`: `getBlock` under the "ID" key. -/
def GetBlockByID (c : KeyedCache Block) (id : String)
    (dbQuery : Except DBErr Block) (barebones : Bool)
    (getAccountByID : String → Except GTSError Account) : GetBlockOut :=
  getBlock c ("ID", [id]) dbQuery barebones getAccountByID

/-- `relationshipDB.GetBlockByURI`: `getBlock` under the "URI" key. -/
def GetBlockByURI (c : KeyedCache Block) (uri : String)
    (dbQuery : Except DBErr Block) (barebones : Bool)
    (getAccountByID : String → Except GTSError Account) : GetBlockOut :=
  getBlock c ("URI", [uri]) dbQuery barebones getAccountByID

/-- `relationshipDB.GetBlock`: `getBlock` under the composite
"AccountID.TargetAccountID" key. -/
def GetBlock (c : KeyedCache Block) (sourceAccountID targetAccountID : String)
    (dbQuery : Except DBErr Block) (barebones : Bool)
    (getAccountByID : String → Except GTSError Account) : GetBlockOut :=
  getBlock c ("AccountID.TargetAccountID", [sourceAccountID, targetAccountID])
    dbQuery barebones getAccountByID

/-- Result of `IsBlocked` / `IsEitherBlocked`: the boolean, the returned
error (`none` is Go `nil`), and the cache afterwards. -/
structure IsBlockedOut where
  blocked : Bool
  err : Option GTSError
  cache : KeyedCache Block

/-- `relationshipDB.IsBlocked`: `GetBlock` with a barebones context; an
error other than `db.ErrNoEntries` is returned with `false`; otherwise the
result is whether a block was found. -/
def IsBlocked (c : KeyedCache Block) (sourceAccountID targetAccountID : String)
    (dbQuery : Except DBErr Block) : IsBlockedOut :=
  let g := GetBlock c sourceAccountID targetAccountID dbQuery true
    (fun _ => .error (.storageErr "unused: barebones skips hydration"))
  match g.result with
  | .error e =>
    if errorsIs e .errNoEntries then ⟨false, none, g.cache⟩
    else ⟨false, some e, g.cache⟩
  | .ok _ => ⟨true, none, g.cache⟩

/-- `relationshipDB.IsEitherBlocked`: checks account1→account2, returning
`(true, err)` on error or a found block, then account2→account1 the same
way, else `(false, nil)`. -/
def IsEitherBlocked (c : KeyedCache Block) (accountID1 accountID2 : String)
    (q12 q21 : Except DBErr Block) : IsBlockedOut :=
  let r1 := IsBlocked c accountID1 accountID2 q12
  if r1.err.isSome || r1.blocked then
    ⟨true, r1.err, r1.cache⟩
  else
    let r2 := IsBlocked r1.cache accountID2 accountID1 q21
    if r2.err.isSome || r2.blocked then
      ⟨true, r2.err, r2.cache⟩
    else
      ⟨false, none, r2.cache⟩

/-- `relationshipDB.PutBlock`: cache store whose writer runs the insert and
routes its error through `ProcessError`. -/
def PutBlock (c : KeyedCache Block) (block : Block) (dbExec : Option DBErr) :
    Except GTSError Unit × KeyedCache Block :=
  store blockCfg c block (dbWriter dbExec)

/-- `relationshipDB.DeleteBlockByID`: deferred `Invalidate("ID", id)` always
runs; the block is first loaded (barebones) to populate the cache; a
NotFound load is no error and skips the delete; otherwise the delete
statement runs and its error is processed. -/
def DeleteBlockByID (c : KeyedCache Block) (id : String)
    (dbQuery : Except DBErr Block) (dbDelete : Option DBErr) : DeleteOut Block :=
  let g := GetBlockByID c id dbQuery true
    (fun _ => .error (.storageErr "unused: barebones skips hydration"))
  match g.result with
  | .error e =>
    { err := if errorsIs e .errNoEntries then none else some e
      backendDeleteRan := false
      invalidateRan := true
      cache := invalidate g.cache ("ID", [id]) }
  | .ok _ =>
    { err := dbDelete.map ProcessError
      backendDeleteRan := true
      invalidateRan := true
      cache := invalidate g.cache ("ID", [id]) }

/-- `relationshipDB.DeleteBlockByURI`: as `DeleteBlockByID` but keyed and
invalidated by "URI". -/
def DeleteBlockByURI (c : KeyedCache Block) (uri : String)
    (dbQuery : Except DBErr Block) (dbDelete : Option DBErr) : DeleteOut Block :=
  let g := GetBlockByURI c uri dbQuery true
    (fun _ => .error (.storageErr "unused: barebones skips hydration"))
  match g.result with
  | .error e =>
    { err := if errorsIs e .errNoEntries then none else some e
      backendDeleteRan := false
      invalidateRan := true
      cache := invalidate g.cache ("URI", [uri]) }
  | .ok _ =>
    { err := dbDelete.map ProcessError
      backendDeleteRan := true
      invalidateRan := true
      cache := invalidate g.cache ("URI", [uri]) }

/-! ## Query-parameter parsing (embedded from `internal/api/util/parsequery.go`) -/

/-- A 400 Bad Request error value, modelling `gtserror.WithCode` as the
parse helpers construct it. -/
structure WithCode where
  msg : String
  code : Nat
deriving DecidableEq, Repr

/-- `parseError`: 400 Bad Request noting a key whose value failed to parse. -/
def parseErrorCode (key value typeName errMsg : String) : WithCode :=
  ⟨"error parsing key " ++ key ++ " with value " ++ value ++ " as " ++
    typeName ++ ": " ++ errMsg, 400⟩

/-- Decimal value of one ASCII digit. -/
def digitVal (ch : Char) : Option Nat :=
  if '0' ≤ ch ∧ ch ≤ '9' then some (ch.toNat - '0'.toNat) else none

/-- Accumulate a decimal digit string; `none` on any non-digit. -/
def parseDigits (cs : List Char) : Option Nat :=
  cs.foldl
    (fun acc ch =>
      match acc, digitVal ch with
      | some n, some d => some (n * 10 + d)
      | _, _ => none)
    (some 0)

/-- Model of Go `strconv.Atoi` on a 64-bit platform: an optional single
sign, then one or more decimal digits, with the result required to fit a
signed 64-bit integer; the error message distinguishes syntax from range. -/
def atoi (s : String) : Except String Int :=
  let cs := s.toList
  let signed : Bool × List Char :=
    match cs with
    | '-' :: rest => (true, rest)
    | '+' :: rest => (false, rest)
    | _ => (false, cs)
  match signed with
  | (neg, ds) =>
    if ds.isEmpty then .error "invalid syntax"
    else
      match parseDigits ds with
      | none => .error "invalid syntax"
      | some n =>
        let v : Int := if neg then -(n : Int) else (n : Int)
        if -(2 ^ 63) ≤ v ∧ v ≤ 2 ^ 63 - 1 then .ok v
        else .error "value out of range"

/-- `parseInt`: an empty value yields the default with no error; a value
`strconv.Atoi` rejects yields the default plus a 400 error; otherwise the
parsed integer clamped to `max` first, then `min`. -/
def parseInt (value : String) (defaultValue maxv minv : Int) (key : String) :
    Int × Option WithCode :=
  if value = "" then (defaultValue, none)
  else
    match atoi value with
    | .error e =>
      (defaultValue, some (parseErrorCode key value "int" e))
    | .ok i =>
      let i := if i > maxv then maxv else if i < minv then minv else i
      (i, none)

/-- `ParseLimit`: `parseInt` under the "limit" key; on error the returned
integer is 0. -/
def ParseLimit (value : String) (defaultValue maxv minv : Int) :
    Int × Option WithCode :=
  match parseInt value defaultValue maxv minv "limit" with
  | (_, some e) => (0, some e)
  | (i, none) => (i, none)

/-- `ParseSearchOffset`: `parseInt` under the "offset" key, returned
directly. -/
def ParseSearchOffset (value : String) (defaultValue maxv minv : Int) :
    Int × Option WithCode :=
  parseInt value defaultValue maxv minv "offset"

/-! ## Helper lemmas -/

theorem alookup_cons {κ α : Type} [DecidableEq κ] (k : κ) (p : κ × α)
    (l : List (κ × α)) :
    alookup k (p :: l) = if p.1 = k then some p.2 else alookup k l := rfl

theorem alookup_map_self {κ α : Type} [DecidableEq κ] (k : κ) (a : α)
    (ks : List κ) (hk : k ∈ ks) :
    alookup k (ks.map fun x => (x, a)) = some a := by
  induction ks with
  | nil => cases hk
  | cons x xs ih =>
    rcases List.mem_cons.mp hk with h | h
    · simp [alookup, h]
    · by_cases hx : x = k
      · simp [alookup, hx]
      · simp [alookup, hx, ih h]

theorem alookup_append {κ α : Type} [DecidableEq κ] (k : κ)
    (l1 l2 : List (κ × α)) :
    alookup k (l1 ++ l2) =
      match alookup k l1 with
      | some v => some v
      | none => alookup k l2 := by
  induction l1 with
  | nil => simp [alookup]
  | cons p ps ih =>
    by_cases hp : p.1 = k
    · simp [alookup, hp]
    · simp [alookup, hp, ih]

theorem alookup_filter_none {κ α : Type} [DecidableEq κ] (k : κ)
    (l : List (κ × α)) (pred : κ × α → Bool)
    (h : ∀ p ∈ l, p.1 = k → pred p = false) :
    alookup k (l.filter pred) = none := by
  induction l with
  | nil => simp [alookup]
  | cons p ps ih =>
    have hps : ∀ q ∈ ps, q.1 = k → pred q = false := by
      intro q hq
      exact h q (List.mem_cons_of_mem p hq)
    by_cases hpk : p.1 = k
    · have : pred p = false := h p (List.mem_cons_self p ps) hpk
      simp [List.filter, this, ih hps]
    · by_cases hpp : pred p
      · simp [List.filter, hpp, alookup, hpk, ih hps]
      · simp [List.filter, hpp, ih hps]

/-- After registering a value, every one of its natural keys resolves to it. -/
theorem resolve_registerValue_mem {V : Type} (cfg : CacheConf V)
    (c : KeyedCache V) (v : V) (k : CacheKey) (hk : k ∈ cfg.keysOf v) :
    resolve (registerValue cfg c v) k = some v := by
  have hidx : alookup k (registerValue cfg c v).index = some (cfg.primaryId v) := by
    show alookup k
      ((cfg.keysOf v).map (fun kk => (kk, cfg.primaryId v)) ++
        c.index.filter (fun p => p.1 ∉ cfg.keysOf v ∧ p.2 ≠ cfg.primaryId v)) =
      some (cfg.primaryId v)
    rw [alookup_append, alookup_map_self k (cfg.primaryId v) (cfg.keysOf v) hk]
  have hent : alookup (cfg.primaryId v) (registerValue cfg c v).entries = some v := by
    show alookup (cfg.primaryId v)
      ((cfg.primaryId v, v) :: c.entries.filter (fun p => p.1 ≠ cfg.primaryId v)) =
      some v
    simp [alookup]
  show (match alookup k (registerValue cfg c v).index with
        | none => none
        | some i => alookup i (registerValue cfg c v).entries) = some v
  rw [hidx]
  exact hent

/-- A load on a key registered for `v` is a hit: it returns `v`, leaves the
cache unchanged and does not invoke the loader. -/
theorem load_hit {V : Type} (cfg : CacheConf V) (c : KeyedCache V) (v : V)
    (k : CacheKey) (loader : Except GTSError V) (h : resolve c k = some v) :
    load cfg c k loader = ⟨.ok v, c, false⟩ := by
  unfold load
  rw [h]

/-- A load on an unresolved key is a miss: the loader is invoked. -/
theorem load_miss {V : Type} (cfg : CacheConf V) (c : KeyedCache V)
    (k : CacheKey) (loader : Except GTSError V) (h : resolve c k = none) :
    (load cfg c k loader).loaderInvoked = true := by
  unfold load
  rw [h]
  cases loader <;> rfl

/-- While a load is in flight and nothing is cached, further `start` events
only enqueue waiters: no field changes except `waiting`. -/
theorem sfRun_starts_join {V : Type} (cs : List Nat) (s : SFState V)
    (hc : s.cached = none) (hi : s.inflight = true) :
    sfRun s (cs.map SFEvent.start) = { s with waiting := cs.reverse ++ s.waiting } := by
  induction cs generalizing s with
  | nil => simp [sfRun]
  | cons c cs ih =>
    have hstep : sfStep s (SFEvent.start c) = { s with waiting := c :: s.waiting } := by
      unfold sfStep
      rw [hc, hi]
      simp
    have hrun : sfRun s ((c :: cs).map SFEvent.start) =
        sfRun { s with waiting := c :: s.waiting } (cs.map SFEvent.start) := by
      simp only [List.map_cons, sfRun, List.foldl_cons, hstep]
    rw [hrun, ih { s with waiting := c :: s.waiting } hc hi]
    simp

/-! ## Claims -/

/-- C1: for one (keyName, keyParts) token with nothing cached, when N ≥ 1
callers concurrently invoke `Load` (all their starts precede the in-flight
completion), exactly one loader execution (backend read) occurs, and every
caller completes with the identical outcome the single leader obtained. -/
theorem claim_C1_single_flight {V : Type} (c0 : Nat) (rest : List Nat)
    (o : Except GTSError V) :
    (sfRun sfInit ((c0 :: rest).map SFEvent.start ++ [SFEvent.finish o])).execs = 1
    ∧ (∀ c ∈ c0 :: rest,
        (c, o) ∈ (sfRun sfInit ((c0 :: rest).map SFEvent.start ++ [SFEvent.finish o])).done)
    ∧ (∀ p ∈ (sfRun sfInit ((c0 :: rest).map SFEvent.start ++ [SFEvent.finish o])).done,
        p.2 = o) := by
  have hstep0 : sfStep (sfInit : SFState V) (SFEvent.start c0) =
      ⟨none, true, [c0], 1, []⟩ := by
    unfold sfStep sfInit
    simp
  have hruns : sfRun (sfInit : SFState V) ((c0 :: rest).map SFEvent.start) =
      ⟨none, true, rest.reverse ++ [c0], 1, []⟩ := by
    simp only [List.map_cons, sfRun, List.foldl_cons, hstep0]
    have := sfRun_starts_join (V := V) rest ⟨none, true, [c0], 1, []⟩ rfl rfl
    simpa [sfRun] using this
  have hall : sfRun (sfInit : SFState V) ((c0 :: rest).map SFEvent.start ++ [SFEvent.finish o]) =
      sfStep (⟨none, true, rest.reverse ++ [c0], 1, []⟩ : SFState V) (SFEvent.finish o) := by
    simp only [sfRun, List.foldl_append, List.foldl_cons, List.foldl_nil]
    rw [show List.foldl sfStep (sfInit : SFState V) ((c0 :: rest).map SFEvent.start) =
      (⟨none, true, rest.reverse ++ [c0], 1, []⟩ : SFState V) from hruns]
  rw [hall]
  refine ⟨rfl, ?_, ?_⟩
  · intro c hc
    have hmem : c ∈ rest.reverse ++ [c0] := by
      rcases List.mem_cons.mp hc with h | h
      · simp [h]
      · simp [h]
    have hm : (c, o) ∈ (rest.reverse ++ [c0]).map (fun c => (c, o)) :=
      List.mem_map_of_mem (fun c => (c, o)) hmem
    show (c, o) ∈ (rest.reverse ++ [c0]).map (fun c => (c, o)) ++ []
    simpa using hm
  · intro p hp
    have hp' : p ∈ (rest.reverse ++ [c0]).map (fun c => (c, o)) ++ [] := hp
    rw [List.append_nil] at hp'
    rcases List.mem_map.mp hp' with ⟨c, _, hpc⟩
    rw [← hpc]

/-- C1 witness: three concurrent callers on one token yield one backend
read, and all three receive the leader's outcome. -/
theorem claim_C1_witness :
    (sfRun sfInit (([0, 1, 2].map SFEvent.start) ++ [SFEvent.finish (.ok "v")])).execs = 1
    ∧ (∀ c ∈ [0, 1, 2],
        (c, (.ok "v" : Except GTSError String)) ∈
          (sfRun sfInit (([0, 1, 2].map SFEvent.start) ++ [SFEvent.finish (.ok "v")])).done)
    ∧ (∀ p ∈ (sfRun sfInit (([0, 1, 2].map SFEvent.start) ++ [SFEvent.finish (.ok "v")])).done,
        p.2 = (.ok "v" : Except GTSError String)) :=
  claim_C1_single_flight 0 [1, 2] (.ok "v")

/-- C2: after a successful `Store(E)` — and likewise after a successful
miss-then-load of E via any one key — a `Load` via each natural key of E
returns E from the cache without invoking the supplied (here always-failing)
loader: the entity is reachable under every natural key. -/
theorem claim_C2_all_keys_hit {V : Type} (cfg : CacheConf V) (c : KeyedCache V)
    (v : V) (k kq : CacheKey) (e : GTSError) (hk : k ∈ cfg.keysOf v)
    (hmiss : resolve c kq = none) :
    load cfg (store cfg c v (.ok ())).2 k (.error e) =
      ⟨.ok v, (store cfg c v (.ok ())).2, false⟩
    ∧ (load cfg c kq (.ok v)).loaderInvoked = true
    ∧ load cfg (load cfg c kq (.ok v)).cache k (.error e) =
        ⟨.ok v, (load cfg c kq (.ok v)).cache, false⟩ := by
  have hstore : (store cfg c v (.ok ())).2 = registerValue cfg c v := rfl
  have hload : load cfg c kq (.ok v) = ⟨.ok v, registerValue cfg c v, true⟩ := by
    unfold load
    rw [hmiss]
  refine ⟨?_, ?_, ?_⟩
  · rw [hstore]
    exact load_hit cfg _ v k (.error e) (resolve_registerValue_mem cfg c v k hk)
  · rw [hload]
  · rw [hload]
    exact load_hit cfg _ v k (.error e) (resolve_registerValue_mem cfg c v k hk)

/-- C2 witness: store a user, then a load by email hits without a backend
read; equally after a miss-then-load by ID. -/
theorem claim_C2_witness :
    load userCfg (store userCfg KeyedCache.empty
        ⟨"u1", "a1", "e@x", "x1", "t1"⟩ (.ok ())).2 ("Email", ["e@x"])
        (.error (.storageErr "boom")) =
      ⟨.ok ⟨"u1", "a1", "e@x", "x1", "t1"⟩,
       (store userCfg KeyedCache.empty ⟨"u1", "a1", "e@x", "x1", "t1"⟩ (.ok ())).2, false⟩
    ∧ (load userCfg KeyedCache.empty ("ID", ["u1"])
        (.ok ⟨"u1", "a1", "e@x", "x1", "t1"⟩)).loaderInvoked = true
    ∧ load userCfg (load userCfg KeyedCache.empty ("ID", ["u1"])
          (.ok ⟨"u1", "a1", "e@x", "x1", "t1"⟩)).cache ("Email", ["e@x"])
        (.error (.storageErr "boom")) =
      ⟨.ok ⟨"u1", "a1", "e@x", "x1", "t1"⟩,
       (load userCfg KeyedCache.empty ("ID", ["u1"])
          (.ok ⟨"u1", "a1", "e@x", "x1", "t1"⟩)).cache, false⟩ :=
  claim_C2_all_keys_hit userCfg KeyedCache.empty ⟨"u1", "a1", "e@x", "x1", "t1"⟩
    ("Email", ["e@x"]) ("ID", ["u1"]) (.storageErr "boom")
    (by simp [userCfg]) rfl

/-- C3: for a cached entity reachable as identity `i` under key `k1`, and
whose key `k2` has no alias pointing elsewhere, `Invalidate(k1)` removes the
entity from every index (no binding resolves to `i` any more), so a
subsequent `Load(k2)` is a guaranteed miss and invokes its loader. -/
theorem claim_C3_cross_key_invalidation {V : Type} (cfg : CacheConf V)
    (c : KeyedCache V) (k1 k2 : CacheKey) (i : String)
    (loader : Except GTSError V)
    (h1 : alookup k1 c.index = some i)
    (h2 : ∀ p ∈ c.index, p.1 = k2 → p.2 = i) :
    (∀ p ∈ (invalidate c k1).index, p.2 ≠ i)
    ∧ (load cfg (invalidate c k1) k2 loader).loaderInvoked = true := by
  have hinv : invalidate c k1 =
      { entries := c.entries.filter (fun p => p.1 ≠ i)
        index := c.index.filter (fun p => p.2 ≠ i) } := by
    unfold invalidate
    rw [h1]
  have hidx : alookup k2 ((invalidate c k1).index) = none := by
    rw [hinv]
    exact alookup_filter_none k2 c.index _
      (fun p hp hpk => by simp [h2 p hp hpk])
  refine ⟨?_, ?_⟩
  · intro p hp
    rw [hinv] at hp
    have := List.of_mem_filter hp
    simpa using this
  · apply load_miss
    unfold resolve
    rw [hidx]

/-- C3 witness: a block cached under its ID, URI and account-pair keys;
invalidating by ID makes a load by URI miss and run the loader. -/
theorem claim_C3_witness :
    (∀ p ∈ (invalidate (registerValue blockCfg KeyedCache.empty
        ⟨"b1", "https://x/b1", "a1", "a2", none, none⟩) ("ID", ["b1"])).index,
      p.2 ≠ "b1")
    ∧ (load blockCfg (invalidate (registerValue blockCfg KeyedCache.empty
          ⟨"b1", "https://x/b1", "a1", "a2", none, none⟩) ("ID", ["b1"]))
        ("URI", ["https://x/b1"])
        (.error .errNoEntries)).loaderInvoked = true :=
  claim_C3_cross_key_invalidation blockCfg
    (registerValue blockCfg KeyedCache.empty
      ⟨"b1", "https://x/b1", "a1", "a2", none, none⟩)
    ("ID", ["b1"]) ("URI", ["https://x/b1"]) "b1" (.error .errNoEntries)
    (by decide) (by decide)

/-- C4: when the writer fails, `Store` returns that error and the cache is
unchanged; in particular any key of the value that resolved to nothing
before still resolves to nothing — the write runs first, indexing only on
success. -/
theorem claim_C4_failed_store_no_trace {V : Type} (cfg : CacheConf V)
    (c : KeyedCache V) (v : V) (e : GTSError) :
    (store cfg c v (.error e)).1 = .error e
    ∧ (store cfg c v (.error e)).2 = c
    ∧ (∀ k ∈ cfg.keysOf v, resolve c k = none →
        resolve (store cfg c v (.error e)).2 k = none) := by
  refine ⟨rfl, rfl, ?_⟩
  intro k _ hk
  exact hk

/-- C4 witness: a failed `PutBlock` returns the storage error and leaves no
entry under the block's keys. -/
theorem claim_C4_witness :
    (store blockCfg KeyedCache.empty
        ⟨"b1", "https://x/b1", "a1", "a2", none, none⟩
        (.error (.storageErr "disk full"))).1 = .error (.storageErr "disk full")
    ∧ (store blockCfg KeyedCache.empty
        ⟨"b1", "https://x/b1", "a1", "a2", none, none⟩
        (.error (.storageErr "disk full"))).2 = KeyedCache.empty
    ∧ (∀ k ∈ blockCfg.keysOf ⟨"b1", "https://x/b1", "a1", "a2", none, none⟩,
        resolve (KeyedCache.empty : KeyedCache Block) k = none →
        resolve (store blockCfg KeyedCache.empty
          ⟨"b1", "https://x/b1", "a1", "a2", none, none⟩
          (.error (.storageErr "disk full"))).2 k = none) :=
  claim_C4_failed_store_no_trace blockCfg KeyedCache.empty
    ⟨"b1", "https://x/b1", "a1", "a2", none, none⟩ (.storageErr "disk full")

/-- C5: a `Load` whose loader reports no rows returns the distinguished
NotFound condition (`db.ErrNoEntries`), testable by `errors.Is`, and caches
nothing; a subsequent `Store` of the same identity followed by a `Load` via
the same key returns the stored value, not a stale NotFound. -/
theorem claim_C5_negative_not_sticky {V : Type} (cfg : CacheConf V)
    (c : KeyedCache V) (v : V) (k : CacheKey) (e : GTSError)
    (hk : k ∈ cfg.keysOf v) (hmiss : resolve c k = none) :
    load cfg c k (.error .errNoEntries) = ⟨.error .errNoEntries, c, true⟩
    ∧ errorsIs .errNoEntries .errNoEntries = true
    ∧ load cfg (store cfg (load cfg c k (.error .errNoEntries)).cache v (.ok ())).2
        k (.error e) =
      ⟨.ok v,
       (store cfg (load cfg c k (.error .errNoEntries)).cache v (.ok ())).2, false⟩ := by
  have hload : load cfg c k (.error .errNoEntries) = ⟨.error .errNoEntries, c, true⟩ := by
    unfold load
    rw [hmiss]
  refine ⟨hload, rfl, ?_⟩
  rw [hload]
  exact load_hit cfg _ v k (.error e) (resolve_registerValue_mem cfg c v k hk)

/-- C5 witness: a user lookup by confirmation token that finds no rows is
NotFound and not cached; storing the user then makes the same lookup hit. -/
theorem claim_C5_witness :
    load userCfg KeyedCache.empty ("ConfirmationToken", ["t1"])
        (.error .errNoEntries) =
      ⟨.error .errNoEntries, KeyedCache.empty, true⟩
    ∧ errorsIs .errNoEntries .errNoEntries = true
    ∧ load userCfg (store userCfg
          (load userCfg KeyedCache.empty ("ConfirmationToken", ["t1"])
            (.error .errNoEntries)).cache
          ⟨"u1", "a1", "e@x", "x1", "t1"⟩ (.ok ())).2
        ("ConfirmationToken", ["t1"]) (.error (.storageErr "boom")) =
      ⟨.ok ⟨"u1", "a1", "e@x", "x1", "t1"⟩,
       (store userCfg
          (load userCfg KeyedCache.empty ("ConfirmationToken", ["t1"])
            (.error .errNoEntries)).cache
          ⟨"u1", "a1", "e@x", "x1", "t1"⟩ (.ok ())).2, false⟩ :=
  claim_C5_negative_not_sticky userCfg KeyedCache.empty
    ⟨"u1", "a1", "e@x", "x1", "t1"⟩ ("ConfirmationToken", ["t1"])
    (.storageErr "boom") (by simp [userCfg]) rfl

/-- On a cache miss whose loader fails, `getBlock` returns the loader's
error unchanged, leaves the cache as it was, and reads no accounts. -/
theorem getBlock_load_error (c : KeyedCache Block) (key : CacheKey)
    (q : Except DBErr Block) (bb : Bool)
    (g : String → Except GTSError Account) (e : GTSError)
    (hmiss : resolve c key = none) (hq : dbLoader q = .error e) :
    getBlock c key q bb g = ⟨.error e, c, []⟩ := by
  have hload : load blockCfg c key (dbLoader q) = ⟨.error e, c, true⟩ := by
    unfold load
    rw [hmiss, hq]
  unfold getBlock
  rw [hload]

/-- C6: a backend error other than no-rows reaching an adapter loader is
propagated to the caller as a storage error rather than swallowed, while
no-rows becomes the distinguished `db.ErrNoEntries`, which `IsBlocked`
detects with `errors.Is` and treats as non-fatal; a hydration failure is
propagated with added context. -/
theorem claim_C6_error_taxonomy (c c2 : KeyedCache Block) (key key2 : CacheKey)
    (m : String) (src tgt : String) (bb : Bool)
    (q : Except DBErr Block) (g : String → Except GTSError Account)
    (b : Block) (e : GTSError)
    (hmiss : resolve c key = none)
    (hmiss2 : resolve c ("AccountID.TargetAccountID", [src, tgt]) = none)
    (hhit : resolve c2 key2 = some b)
    (hge : g b.accountID = .error e) :
    (getBlock c key (.error (.driverErr m)) bb g).result = .error (.storageErr m)
    ∧ (getBlock c key (.error .noRows) bb g).result = .error .errNoEntries
    ∧ errorsIs (GTSError.storageErr m) .errNoEntries = false
    ∧ IsBlocked c src tgt (.error .noRows) = ⟨false, none, c⟩
    ∧ IsBlocked c src tgt (.error (.driverErr m)) = ⟨false, some (.storageErr m), c⟩
    ∧ (getBlock c2 key2 q false g).result =
        .error (.wrapped "error getting block source account" e) := by
  have hdrv := getBlock_load_error c key (.error (.driverErr m)) bb g
    (.storageErr m) hmiss rfl
  have hnr := getBlock_load_error c key (.error .noRows) bb g
    .errNoEntries hmiss rfl
  have hnr2 := getBlock_load_error c ("AccountID.TargetAccountID", [src, tgt])
    (.error .noRows) true (fun _ => .error (.storageErr "unused: barebones skips hydration"))
    .errNoEntries hmiss2 rfl
  have hdrv2 := getBlock_load_error c ("AccountID.TargetAccountID", [src, tgt])
    (.error (.driverErr m)) true (fun _ => .error (.storageErr "unused: barebones skips hydration"))
    (.storageErr m) hmiss2 rfl
  have hload2 : load blockCfg c2 key2 (dbLoader q) = ⟨.ok b, c2, false⟩ :=
    load_hit blockCfg c2 b key2 (dbLoader q) hhit
  refine ⟨by rw [hdrv], by rw [hnr], by simp [errorsIs], ?_, ?_, ?_⟩
  · unfold IsBlocked GetBlock
    rw [hnr2]
    simp [errorsIs]
  · unfold IsBlocked GetBlock
    rw [hdrv2]
    simp [errorsIs]
  · unfold getBlock
    rw [hload2]
    simp [hge]

/-- C6 witness: on an empty cache, a driver failure surfaces as a storage
error, a no-rows result as NotFound — treated as non-fatal by `IsBlocked` —
and a hydration failure is wrapped with context. -/
theorem claim_C6_witness :
    (getBlock KeyedCache.empty ("ID", ["b1"]) (.error (.driverErr "io"))
        true (fun _ => .error .errNoEntries)).result = .error (.storageErr "io")
    ∧ (getBlock KeyedCache.empty ("ID", ["b1"]) (.error .noRows)
        true (fun _ => .error .errNoEntries)).result = .error .errNoEntries
    ∧ errorsIs (GTSError.storageErr "io") .errNoEntries = false
    ∧ IsBlocked KeyedCache.empty "a1" "a2" (.error .noRows) =
        ⟨false, none, KeyedCache.empty⟩
    ∧ IsBlocked KeyedCache.empty "a1" "a2" (.error (.driverErr "io")) =
        ⟨false, some (.storageErr "io"), KeyedCache.empty⟩
    ∧ (getBlock (registerValue blockCfg KeyedCache.empty
          ⟨"b1", "https://x/b1", "a1", "a2", none, none⟩) ("ID", ["b1"])
        (.error .noRows) false (fun _ => .error .errNoEntries)).result =
        .error (.wrapped "error getting block source account" .errNoEntries) :=
  claim_C6_error_taxonomy KeyedCache.empty
    (registerValue blockCfg KeyedCache.empty
      ⟨"b1", "https://x/b1", "a1", "a2", none, none⟩)
    ("ID", ["b1"]) ("ID", ["b1"]) "io" "a1" "a2" true (.error .noRows)
    (fun _ => .error .errNoEntries)
    ⟨"b1", "https://x/b1", "a1", "a2", none, none⟩ .errNoEntries
    rfl rfl (by decide) rfl

/-- C7: when the request context carries the barebones flag, `getBlock`
returns the cache-load result immediately, performing no related-account
reads; without the flag (and a successful load) the source-account read is
performed as part of hydration. -/
theorem claim_C7_barebones_skips_hydration (c : KeyedCache Block)
    (key : CacheKey) (q : Except DBErr Block)
    (g : String → Except GTSError Account) (b : Block)
    (hok : (load blockCfg c key (dbLoader q)).result = .ok b) :
    (getBlock c key q true g).accountReads = []
    ∧ (getBlock c key q true g).result = .ok b
    ∧ (getBlock c key q true g).cache = (load blockCfg c key (dbLoader q)).cache
    ∧ b.accountID ∈ (getBlock c key q false g).accountReads := by
  rcases hout : load blockCfg c key (dbLoader q) with ⟨res, cc, li⟩
  rw [hout] at hok
  have hres : res = .ok b := hok
  subst hres
  unfold getBlock
  rw [hout]
  refine ⟨rfl, rfl, rfl, ?_⟩
  cases hga : g b.accountID with
  | error e => simp [hga]
  | ok acc =>
    cases hgt : g b.targetAccountID with
    | error e => simp [hga, hgt]
    | ok tacc => simp [hga, hgt]

/-- C7 witness: for a cached block, the barebones path performs no account
reads and returns the block as loaded, while the hydrating path reads the
source account. -/
theorem claim_C7_witness :
    (getBlock (registerValue blockCfg KeyedCache.empty
        ⟨"b1", "https://x/b1", "a1", "a2", none, none⟩) ("URI", ["https://x/b1"])
      (.error .noRows) true (fun s => .ok ⟨s⟩)).accountReads = []
    ∧ (getBlock (registerValue blockCfg KeyedCache.empty
        ⟨"b1", "https://x/b1", "a1", "a2", none, none⟩) ("URI", ["https://x/b1"])
      (.error .noRows) true (fun s => .ok ⟨s⟩)).result =
        .ok ⟨"b1", "https://x/b1", "a1", "a2", none, none⟩
    ∧ (getBlock (registerValue blockCfg KeyedCache.empty
        ⟨"b1", "https://x/b1", "a1", "a2", none, none⟩) ("URI", ["https://x/b1"])
      (.error .noRows) true (fun s => .ok ⟨s⟩)).cache =
        (load blockCfg (registerValue blockCfg KeyedCache.empty
          ⟨"b1", "https://x/b1", "a1", "a2", none, none⟩) ("URI", ["https://x/b1"])
          (dbLoader (.error .noRows))).cache
    ∧ "a1" ∈ (getBlock (registerValue blockCfg KeyedCache.empty
        ⟨"b1", "https://x/b1", "a1", "a2", none, none⟩) ("URI", ["https://x/b1"])
      (.error .noRows) false (fun s => .ok ⟨s⟩)).accountReads :=
  claim_C7_barebones_skips_hydration
    (registerValue blockCfg KeyedCache.empty
      ⟨"b1", "https://x/b1", "a1", "a2", none, none⟩)
    ("URI", ["https://x/b1"]) (.error .noRows) (fun s => .ok ⟨s⟩)
    ⟨"b1", "https://x/b1", "a1", "a2", none, none⟩ rfl

/-- C8: when the pre-delete cache load reports NotFound (no entity exists
for the ID or URI), `DeleteUserByID`, `DeleteBlockByID` and
`DeleteBlockByURI` return a nil error and skip the backend delete statement,
while the deferred cache `Invalidate` still runs. -/
theorem claim_C8_delete_missing_is_nil (cu : KeyedCache User)
    (cb1 cb2 : KeyedCache Block) (uid bid buri : String) (dd : Option DBErr)
    (h1 : resolve cu ("ID", [uid]) = none)
    (h2 : resolve cb1 ("ID", [bid]) = none)
    (h3 : resolve cb2 ("URI", [buri]) = none) :
    DeleteUserByID cu uid (.error .noRows) dd =
      ⟨none, false, true, invalidate cu ("ID", [uid])⟩
    ∧ DeleteBlockByID cb1 bid (.error .noRows) dd =
      ⟨none, false, true, invalidate cb1 ("ID", [bid])⟩
    ∧ DeleteBlockByURI cb2 buri (.error .noRows) dd =
      ⟨none, false, true, invalidate cb2 ("URI", [buri])⟩ := by
  have hu : GetUserByID cu uid (.error .noRows) =
      ⟨.error .errNoEntries, cu, true⟩ := by
    unfold GetUserByID load
    rw [h1]
    rfl
  have hb1 := getBlock_load_error cb1 ("ID", [bid]) (.error .noRows) true
    (fun _ => .error (.storageErr "unused: barebones skips hydration"))
    .errNoEntries h2 rfl
  have hb2 := getBlock_load_error cb2 ("URI", [buri]) (.error .noRows) true
    (fun _ => .error (.storageErr "unused: barebones skips hydration"))
    .errNoEntries h3 rfl
  refine ⟨?_, ?_, ?_⟩
  · unfold DeleteUserByID
    rw [hu]
    simp [errorsIs]
  · unfold DeleteBlockByID GetBlockByID
    rw [hb1]
    simp [errorsIs]
  · unfold DeleteBlockByURI GetBlockByURI
    rw [hb2]
    simp [errorsIs]

/-- C8 witness: deleting a nonexistent user, block by ID, and block by URI
each return nil, skip the delete statement, and still invalidate. -/
theorem claim_C8_witness :
    DeleteUserByID KeyedCache.empty "u1" (.error .noRows) none =
      ⟨none, false, true, invalidate KeyedCache.empty ("ID", ["u1"])⟩
    ∧ DeleteBlockByID KeyedCache.empty "b1" (.error .noRows) none =
      ⟨none, false, true, invalidate KeyedCache.empty ("ID", ["b1"])⟩
    ∧ DeleteBlockByURI KeyedCache.empty "https://x/b1" (.error .noRows) none =
      ⟨none, false, true, invalidate KeyedCache.empty ("URI", ["https://x/b1"])⟩ :=
  claim_C8_delete_missing_is_nil KeyedCache.empty KeyedCache.empty
    KeyedCache.empty "u1" "b1" "https://x/b1" none rfl rfl rfl

/-- C9: if the underlying block lookup inside `IsEitherBlocked` fails with a
non-nil error in either direction, `IsEitherBlocked` returns `true` together
with that error; `(false, error)` is impossible. -/
theorem claim_C9_either_blocked_error (c : KeyedCache Block) (a1 a2 : String)
    (q12 q21 : Except DBErr Block) :
    (∀ e, (IsBlocked c a1 a2 q12).err = some e →
      IsEitherBlocked c a1 a2 q12 q21 =
        ⟨true, some e, (IsBlocked c a1 a2 q12).cache⟩)
    ∧ (∀ e, (IsBlocked c a1 a2 q12).blocked = false →
        (IsBlocked c a1 a2 q12).err = none →
        (IsBlocked (IsBlocked c a1 a2 q12).cache a2 a1 q21).err = some e →
        IsEitherBlocked c a1 a2 q12 q21 =
          ⟨true, some e, (IsBlocked (IsBlocked c a1 a2 q12).cache a2 a1 q21).cache⟩)
    ∧ ((IsEitherBlocked c a1 a2 q12 q21).blocked = false →
        (IsEitherBlocked c a1 a2 q12 q21).err = none) := by
  refine ⟨?_, ?_, ?_⟩
  · intro e he
    unfold IsEitherBlocked
    simp [he]
  · intro e hb hn he
    unfold IsEitherBlocked
    simp [hb, hn, he]
  · intro hfalse
    by_cases h1 : ((IsBlocked c a1 a2 q12).err.isSome ||
        (IsBlocked c a1 a2 q12).blocked) = true
    · exfalso
      have hblk : (IsEitherBlocked c a1 a2 q12 q21).blocked = true := by
        unfold IsEitherBlocked
        simp [h1]
      rw [hblk] at hfalse
      exact Bool.noConfusion hfalse
    · by_cases h2 : ((IsBlocked (IsBlocked c a1 a2 q12).cache a2 a1 q21).err.isSome ||
          (IsBlocked (IsBlocked c a1 a2 q12).cache a2 a1 q21).blocked) = true
      · exfalso
        have hblk : (IsEitherBlocked c a1 a2 q12 q21).blocked = true := by
          unfold IsEitherBlocked
          simp [h1, h2]
        rw [hblk] at hfalse
        exact Bool.noConfusion hfalse
      · unfold IsEitherBlocked
        simp [h1, h2]

/-- C9 witness: a driver failure in the first direction yields `(true, err)`
from `IsEitherBlocked`, and a blocked-false result carries no error. -/
theorem claim_C9_witness :
    IsEitherBlocked KeyedCache.empty "a1" "a2"
        (.error (.driverErr "io")) (.error .noRows) =
      ⟨true, some (.storageErr "io"),
       (IsBlocked KeyedCache.empty "a1" "a2" (.error (.driverErr "io"))).cache⟩
    ∧ ((IsEitherBlocked KeyedCache.empty "a1" "a2"
          (.error .noRows) (.error .noRows)).blocked = false →
        (IsEitherBlocked KeyedCache.empty "a1" "a2"
          (.error .noRows) (.error .noRows)).err = none) :=
  ⟨(claim_C9_either_blocked_error KeyedCache.empty "a1" "a2"
      (.error (.driverErr "io")) (.error .noRows)).1 (.storageErr "io") rfl,
   (claim_C9_either_blocked_error KeyedCache.empty "a1" "a2"
      (.error .noRows) (.error .noRows)).2.2⟩

/-- C10: a non-empty query-parameter string that `strconv.Atoi` accepts as
integer `i` makes `ParseLimit` and `ParseSearchOffset` return the clamped
value — `max` when `i > max`, else `min` when `i < min`, else `i` — with no
error, and an empty string yields the default value with no error. -/
theorem claim_C10_parse_clamps (s : String) (i d mx mn : Int)
    (h : atoi s = .ok i) :
    ParseLimit s d mx mn = ((if i > mx then mx else if i < mn then mn else i), none)
    ∧ ParseSearchOffset s d mx mn =
        ((if i > mx then mx else if i < mn then mn else i), none)
    ∧ ParseLimit "" d mx mn = (d, none)
    ∧ ParseSearchOffset "" d mx mn = (d, none) := by
  have hne : ¬ s = "" := by
    intro hs
    rw [hs] at h
    have hempty : atoi "" = .error "invalid syntax" := rfl
    rw [hempty] at h
    exact Except.noConfusion h
  have hpi : ∀ key, parseInt s d mx mn key =
      ((if i > mx then mx else if i < mn then mn else i), none) := by
    intro key
    unfold parseInt
    rw [if_neg hne, h]
  refine ⟨?_, ?_, rfl, rfl⟩
  · unfold ParseLimit
    rw [hpi "limit"]
  · unfold ParseSearchOffset
    rw [hpi "offset"]

/-- C10 witness: "120" clamps to a max of 80, "-3" clamps to a min of 0,
"25" passes through, and "" yields the default, all without error. -/
theorem claim_C10_witness :
    ParseLimit "120" 20 80 0 = (80, none)
    ∧ ParseSearchOffset "-3" 0 40 0 = (0, none)
    ∧ ParseLimit "25" 20 80 0 = (25, none)
    ∧ ParseLimit "" 20 80 0 = (20, none) := by
  have h1 := claim_C10_parse_clamps "120" 120 20 80 0 rfl
  have h2 := claim_C10_parse_clamps "-3" (-3) 0 40 0 rfl
  have h3 := claim_C10_parse_clamps "25" 25 20 80 0 rfl
  refine ⟨?_, ?_, ?_, h1.2.2.1⟩
  · rw [h1.1]
    norm_num
  · rw [h2.2.1]
    norm_num
  · rw [h3.1]
    norm_num

end Gts
